import Mathlib

/-!
Verification of the MembraCon WaterLogic decision-and-pricing engine.

The definitions below are a shallow embedding of the engine source:

* `src/js/data/technologies.js` — technology registry and chain composition
* `src/js/simulator/calculations.js` — simulator calculations (removal
  requirements, chain evaluation, constraint checks, confidence, ledger hash)
* `proposal-engine.js` — customer specification, validation, feasibility
  filter, pricing model
* `simulator.js` — the simulator run controller (best-solution selection)

JavaScript numbers are modelled as exact rationals (`ℚ`) except in the
pricing model, where the logistic win-probability model uses `Real.exp`
and the embedding is over `ℝ`.  Division by zero follows the Lean
convention `x / 0 = 0`; every place where this diverges from the
JavaScript semantics (which yields Infinity or NaN) is flagged in a
comment at the definition it concerns.
-/

-- ===========================================================================
-- Ledger hash (calculations.js, generateLedgerHash)
-- ===========================================================================

/-- JavaScript ToInt32 conversion: wrap an integer into [-2^31, 2^31). -/
def toInt32 (n : Int) : Int := (n + 2 ^ 31) % 2 ^ 32 - 2 ^ 31

/-- Embedding of the character loop of `generateLedgerHash`:
`hash = ((hash << 5) - hash) + charCode; hash = hash & hash` folded over the
code units of the data string.  `hash << 5` is ToInt32 shifting (the
accumulator is already an Int32, so it equals ToInt32 of `hash * 32`), the
intermediate sum is exact in a 64-bit float at this magnitude, and
`hash & hash` is a ToInt32 conversion. -/
def jsStringHash (data : String) : Int :=
  data.toList.foldl
    (fun hash c => toInt32 (toInt32 (hash * 32) - hash + (c.toNat : Int))) 0

/-- Hexadecimal rendering of a natural number, as produced by the JavaScript
`Number.prototype.toString(16)` on a non-negative integer (lower-case,
"0" for zero). -/
def natToHex (n : Nat) : String := (Nat.toDigits 16 n).asString

/-- JavaScript `String.prototype.padStart(16, '0')`. -/
def padStart16 (s : String) : String :=
  String.mk (List.replicate (16 - s.length) '0') ++ s

/-- Environment consumed by one call of `generateLedgerHash`: the
`Date.now()` sample and the `Math.random()` sample.  The random sample is
kept as the fractional hex digits that `Math.random().toString(16)` shows
after the leading "0." — exactly the characters `substr(2, 48)` reads. -/
structure LedgerEnv where
  timestamp : Nat
  randFracHex : String
deriving DecidableEq

/-- Embedding of `generateLedgerHash(inputs, solution)`.

`JSON.stringify({ inputs, solution: solution.name, timestamp: Date.now() })`
serializes the gathered inputs record in a fixed key order; since
`JSON.stringify` is deterministic on a fixed record and nothing in the
verified claim depends on its exact number formatting, the serialized
inputs object is passed through as an opaque string `inputsJson`.  The
function then hashes the data string and appends 48 hex characters of the
`Math.random()` sample. -/
def generateLedgerHash (inputsJson : String) (solutionName : String)
    (env : LedgerEnv) : String :=
  let data := "\x7b\"inputs\":" ++ inputsJson ++ ",\"solution\":\"" ++
    solutionName ++ "\",\"timestamp\":" ++ toString env.timestamp ++ "\x7d"
  let hash := jsStringHash data
  "0x" ++ padStart16 (natToHex hash.natAbs) ++
    (env.randFracHex.take 48)

-- ===========================================================================
-- Technology registry (technologies.js)
-- ===========================================================================

/-- Technology reference record.  Presentation-only string fields
(description, applications, operating data) are omitted: no embedded
operation reads them. -/
structure Technology where
  id : String
  name : String
  tssRemoval : ℚ
  tdsRemoval : ℚ
  bodRemoval : ℚ
  codRemoval : ℚ
  energy : ℚ
  footprint : ℚ
  capexFactor : ℚ
  maintenance : ℚ
  chemicalConsumption : ℚ
  lifespan : ℚ
deriving DecidableEq

def techUF : Technology :=
  { id := "UF", name := "Ultrafiltration", tssRemoval := 0.99, tdsRemoval := 0.05,
    bodRemoval := 0.30, codRemoval := 0.25, energy := 0.3, footprint := 0.8,
    capexFactor := 1.0, maintenance := 0.02, chemicalConsumption := 0.01, lifespan := 7 }

def techMBR : Technology :=
  { id := "MBR", name := "Membrane Bioreactor", tssRemoval := 0.99, tdsRemoval := 0.10,
    bodRemoval := 0.95, codRemoval := 0.90, energy := 0.8, footprint := 0.5,
    capexFactor := 1.8, maintenance := 0.04, chemicalConsumption := 0.03, lifespan := 10 }

def techRO : Technology :=
  { id := "RO", name := "Reverse Osmosis", tssRemoval := 0.99, tdsRemoval := 0.97,
    bodRemoval := 0.95, codRemoval := 0.95, energy := 2.5, footprint := 1.0,
    capexFactor := 2.2, maintenance := 0.03, chemicalConsumption := 0.05, lifespan := 5 }

def techUV : Technology :=
  { id := "UV", name := "UV Disinfection", tssRemoval := 0.0, tdsRemoval := 0.0,
    bodRemoval := 0.0, codRemoval := 0.0, energy := 0.1, footprint := 0.2,
    capexFactor := 0.3, maintenance := 0.05, chemicalConsumption := 0.0, lifespan := 15 }

def techAOP : Technology :=
  { id := "AOP", name := "Advanced Oxidation", tssRemoval := 0.3, tdsRemoval := 0.2,
    bodRemoval := 0.8, codRemoval := 0.85, energy := 1.2, footprint := 0.4,
    capexFactor := 1.5, maintenance := 0.04, chemicalConsumption := 0.15, lifespan := 12 }

def techNF : Technology :=
  { id := "NF", name := "Nanofiltration", tssRemoval := 0.99, tdsRemoval := 0.60,
    bodRemoval := 0.80, codRemoval := 0.75, energy := 1.0, footprint := 0.9,
    capexFactor := 1.6, maintenance := 0.03, chemicalConsumption := 0.03, lifespan := 6 }

def techDAF : Technology :=
  { id := "DAF", name := "Dissolved Air Flotation", tssRemoval := 0.90, tdsRemoval := 0.0,
    bodRemoval := 0.30, codRemoval := 0.25, energy := 0.05, footprint := 1.5,
    capexFactor := 0.8, maintenance := 0.02, chemicalConsumption := 0.02, lifespan := 20 }

/-- The TECHNOLOGIES object: string-keyed lookup; an identifier that is not
a key yields `undefined`, modelled as `none`. -/
def TECHNOLOGIES (tid : String) : Option Technology :=
  if tid = "UF" then some techUF
  else if tid = "MBR" then some techMBR
  else if tid = "RO" then some techRO
  else if tid = "UV" then some techUV
  else if tid = "AOP" then some techAOP
  else if tid = "NF" then some techNF
  else if tid = "DAF" then some techDAF
  else none

/-- Pre-defined technology chain (TECH_CHAINS entry). -/
structure TechChain where
  techs : List String
  name : String
  description : String
deriving DecidableEq

def TECH_CHAINS : List TechChain :=
  [ ⟨["UF", "RO"], "UF + RO", "Standard high-purity treatment"⟩,
    ⟨["MBR", "RO"], "MBR + RO", "Biological treatment with RO polishing"⟩,
    ⟨["UF"], "UF Only", "Particle/pathogen removal"⟩,
    ⟨["MBR"], "MBR Only", "Biological treatment"⟩,
    ⟨["UF", "RO", "UV"], "UF + RO + UV", "Full treatment with disinfection"⟩,
    ⟨["DAF", "UF", "RO"], "DAF + UF + RO", "Complete train for high-load water"⟩,
    ⟨["MBR", "NF"], "MBR + NF", "Softening and organics removal"⟩,
    ⟨["UF", "AOP", "RO"], "UF + AOP + RO", "Micropollutant treatment"⟩ ]

/-- Mutable accumulator of the `calculateChainPerformance` loop. -/
structure ChainAcc where
  tssRemoval : ℚ
  tdsRemoval : ℚ
  bodRemoval : ℚ
  codRemoval : ℚ
  totalEnergy : ℚ
  totalFootprint : ℚ
  totalCapex : ℚ
  totalMaintenance : ℚ
  totalChemicals : ℚ
deriving DecidableEq

def chainAccInit : ChainAcc := ⟨0, 0, 0, 0, 0, 0, 0, 0, 0⟩

/-- One iteration of the `techs.forEach` loop: an unknown identifier is
skipped (`if (!tech) return`), a known one composes removals serially as
`1 - (1-r1)(1-r2)` and sums the additive metrics. -/
def chainAccStep (acc : ChainAcc) (tid : String) : ChainAcc :=
  match TECHNOLOGIES tid with
  | none => acc
  | some tech =>
    { tssRemoval := 1 - (1 - acc.tssRemoval) * (1 - tech.tssRemoval)
      tdsRemoval := 1 - (1 - acc.tdsRemoval) * (1 - tech.tdsRemoval)
      bodRemoval := 1 - (1 - acc.bodRemoval) * (1 - tech.bodRemoval)
      codRemoval := 1 - (1 - acc.codRemoval) * (1 - tech.codRemoval)
      totalEnergy := acc.totalEnergy + tech.energy
      totalFootprint := acc.totalFootprint + tech.footprint
      totalCapex := acc.totalCapex + tech.capexFactor
      totalMaintenance := acc.totalMaintenance + tech.maintenance
      totalChemicals := acc.totalChemicals + tech.chemicalConsumption }

/-- Combined performance record returned by `calculateChainPerformance`. -/
structure ChainPerformance where
  techs : List String
  tssRemoval : ℚ
  tdsRemoval : ℚ
  bodRemoval : ℚ
  codRemoval : ℚ
  energy : ℚ
  footprint : ℚ
  capexFactor : ℚ
  maintenance : ℚ
  chemicals : ℚ
deriving DecidableEq

/-- Embedding of `calculateChainPerformance(techs)`. -/
def calculateChainPerformance (techs : List String) : ChainPerformance :=
  let acc := techs.foldl chainAccStep chainAccInit
  { techs := techs
    tssRemoval := acc.tssRemoval
    tdsRemoval := acc.tdsRemoval
    bodRemoval := acc.bodRemoval
    codRemoval := acc.codRemoval
    energy := acc.totalEnergy
    footprint := acc.totalFootprint
    capexFactor := acc.totalCapex
    maintenance := acc.totalMaintenance
    chemicals := acc.totalChemicals }

-- ===========================================================================
-- Simulator calculations (calculations.js)
-- ===========================================================================

/-- Inputs gathered by `Simulator.gatherInputs` from the form. -/
structure SimInputs where
  sector : String
  flow : ℚ
  hours : ℚ
  tss : ℚ
  tds : ℚ
  bod : ℚ
  cod : ℚ
  tssTarget : ℚ
  tdsTarget : ℚ
  waterPriority : ℚ
  carbonPriority : ℚ
  energyPriority : ℚ
  maxFootprint : ℚ
  maxBudget : ℚ
deriving DecidableEq

structure ESGWeights where
  water : ℚ
  carbon : ℚ
  energy : ℚ
deriving DecidableEq

/-- Embedding of `normalizeESGWeights(inputs)`. -/
def normalizeESGWeights (inputs : SimInputs) : ESGWeights :=
  let total := inputs.waterPriority + inputs.carbonPriority + inputs.energyPriority
  if total = 0 then ⟨0.33, 0.33, 0.34⟩
  else ⟨inputs.waterPriority / total, inputs.carbonPriority / total,
        inputs.energyPriority / total⟩

structure RemovalNeeded where
  tss : ℚ
  tds : ℚ
deriving DecidableEq

/-- Embedding of `calculateRemovalNeeded(inputs)`: required removal is
`1 - target/feed`, guarded to 0 unless the feed concentration is
strictly positive. -/
def calculateRemovalNeeded (inputs : SimInputs) : RemovalNeeded :=
  { tss := if 0 < inputs.tss then 1 - inputs.tssTarget / inputs.tss else 0
    tds := if 0 < inputs.tds then 1 - inputs.tdsTarget / inputs.tds else 0 }

/-- Solution record pushed by `evaluateTechnologies`. -/
structure Solution where
  name : String
  description : String
  techs : List String
  tssRemoval : ℚ
  tdsRemoval : ℚ
  energy : ℚ
  footprint : ℚ
  capex : ℚ
  recovery : ℚ
  techScore : ℚ
  costScore : ℚ
  esgScore : ℚ
  overallScore : ℚ
  feasible : Bool
deriving DecidableEq

/-- Body of the `TECH_CHAINS.forEach` loop of `evaluateTechnologies`:
evaluate and score one chain.  The JavaScript `(removalNeeded.tss || 1)`
guard replaces a zero denominator by 1 and is modelled by the inner `if`.
The `capex / inputs.maxBudget` division follows the rational convention
`x / 0 = 0` where JavaScript would give Infinity (and hence costScore 0);
no verified claim evaluates this at `maxBudget = 0`. -/
def evalChain (inputs : SimInputs) (chain : TechChain) : Solution :=
  let removalNeeded := calculateRemovalNeeded inputs
  let esgWeights := normalizeESGWeights inputs
  let perf := calculateChainPerformance chain.techs
  let footprint := perf.footprint * inputs.flow * 0.5
  let capex := perf.capexFactor * inputs.flow * 1000
  let recovery : ℚ := if 0.5 < removalNeeded.tds then 0.75 else 0.9
  let tssScore : ℚ :=
    if removalNeeded.tss ≤ perf.tssRemoval then 1
    else perf.tssRemoval / (if removalNeeded.tss = 0 then 1 else removalNeeded.tss)
  let tdsScore : ℚ :=
    if removalNeeded.tds ≤ perf.tdsRemoval then 1
    else perf.tdsRemoval / (if removalNeeded.tds = 0 then 1 else removalNeeded.tds)
  let techScore := tssScore * tdsScore
  let costScore := 1 - min (capex / inputs.maxBudget) 1
  let waterScore := recovery
  let energyScore := 1 - min (perf.energy / 5) 1
  let carbonScore := 1 - min (perf.energy * 0.5 / 2) 1
  let esgScore := waterScore * esgWeights.water + energyScore * esgWeights.energy +
    carbonScore * esgWeights.carbon
  let overallScore := techScore * 0.4 + costScore * 0.3 + esgScore * 0.3
  let feasible :=
    decide (removalNeeded.tss ≤ perf.tssRemoval) &&
    decide (removalNeeded.tds ≤ perf.tdsRemoval) &&
    decide (footprint ≤ inputs.maxFootprint) &&
    decide (capex ≤ inputs.maxBudget)
  { name := chain.name, description := chain.description, techs := chain.techs
    tssRemoval := perf.tssRemoval, tdsRemoval := perf.tdsRemoval
    energy := perf.energy, footprint := footprint, capex := capex
    recovery := recovery, techScore := techScore, costScore := costScore
    esgScore := esgScore, overallScore := overallScore, feasible := feasible }

/-- Stable insertion into a list sorted by descending overallScore: the new
element goes after every element with an equal or greater score. -/
def insertByScore (s : Solution) : List Solution → List Solution
  | [] => [s]
  | t :: rest =>
    if t.overallScore < s.overallScore then s :: t :: rest
    else t :: insertByScore s rest

/-- Stable descending sort by overallScore, modelling the observable result
of `solutions.sort((a, b) => b.overallScore - a.overallScore)` (JavaScript
Array.prototype.sort is stable). -/
def sortByScoreDesc (l : List Solution) : List Solution :=
  l.foldl (fun acc s => insertByScore s acc) []

/-- Embedding of `evaluateTechnologies(inputs)`: score every chain, then
sort by overall score descending. -/
def evaluateTechnologies (inputs : SimInputs) : List Solution :=
  sortByScoreDesc (TECH_CHAINS.map (evalChain inputs))

/-- Constraint check record produced by `checkConstraints`. -/
structure ConstraintCheck where
  name : String
  required : ℚ
  achieved : ℚ
  pass : Bool
  margin : ℚ
deriving DecidableEq

/-- Embedding of `checkConstraints(inputs, solution)`. -/
def checkConstraints (inputs : SimInputs) (solution : Solution) :
    List ConstraintCheck :=
  let removalNeeded := calculateRemovalNeeded inputs
  [ { name := "TSS Removal", required := removalNeeded.tss
      achieved := solution.tssRemoval
      pass := decide (removalNeeded.tss ≤ solution.tssRemoval)
      margin := solution.tssRemoval - removalNeeded.tss },
    { name := "TDS Removal", required := removalNeeded.tds
      achieved := solution.tdsRemoval
      pass := decide (removalNeeded.tds ≤ solution.tdsRemoval)
      margin := solution.tdsRemoval - removalNeeded.tds },
    { name := "Footprint", required := inputs.maxFootprint
      achieved := solution.footprint
      pass := decide (solution.footprint ≤ inputs.maxFootprint)
      margin := inputs.maxFootprint - solution.footprint },
    { name := "Budget (CAPEX)", required := inputs.maxBudget
      achieved := solution.capex
      pass := decide (solution.capex ≤ inputs.maxBudget)
      margin := inputs.maxBudget - solution.capex } ]

/-- Confidence record produced by `calculateConfidence` (the `factors`
sub-record, a display-only echo of the three terms, is omitted). -/
structure Confidence where
  score : ℚ
  decision : String
  level : String
deriving DecidableEq

/-- Embedding of `calculateConfidence(inputs, solution)`. -/
def calculateConfidence (_inputs : SimInputs) (solution : Solution) : Confidence :=
  let dataQuality : ℚ := 0.85
  let modelCertainty := solution.techScore
  let constraintMargin : ℚ := if solution.feasible then 0.9 else 0.3
  let confidence := 0.4 * dataQuality + 0.35 * modelCertainty + 0.25 * constraintMargin
  let score := confidence * 100
  { score := score
    decision :=
      if 80 ≤ score then "Auto-approve recommended"
      else if 50 ≤ score then "Human review recommended"
      else "Manual override required"
    level := if 80 ≤ score then "high" else if 50 ≤ score then "medium" else "low" }

/-- Best-solution selection of `Simulator.run`: `solutions[0]`, which is
`undefined` (here `none`) exactly when the list is empty. -/
def simulatorBestSolution (inputs : SimInputs) : Option Solution :=
  (evaluateTechnologies inputs).head?

-- ===========================================================================
-- Proposal engine (proposal-engine.js): specification and validation
-- ===========================================================================

structure FeedWater where
  tds : ℚ
  tss : ℚ
  bod : ℚ
  cod : ℚ
  ph : ℚ
deriving DecidableEq

structure TargetQuality where
  tds : ℚ
  tss : ℚ
  bod : ℚ
  cod : ℚ
deriving DecidableEq

/-- Customer specification (`CustomerSpec` constructor).  The constraint,
optional-module, ESG-priority and vendor-preference fields are omitted:
none of the embedded operations (`validate`, `getRequiredRemoval`,
`filterFeasibleChains`) reads them. -/
structure CustomerSpec where
  sector : String
  flowRate : ℚ
  operatingHours : ℚ
  feedWater : FeedWater
  targetQuality : TargetQuality
deriving DecidableEq

structure ValidationResult where
  valid : Bool
  errors : List String
deriving DecidableEq

/-- Embedding of `CustomerSpec.validate()`: three sequential checks push
error messages (flow positivity, TDS target versus feed, TSS target versus
feed — BOD and COD are not checked by the source), and `valid` is
`errors.length === 0`. -/
def CustomerSpec.validate (s : CustomerSpec) : ValidationResult :=
  let errors :=
    (if s.flowRate ≤ 0 then ["Flow rate must be positive"] else []) ++
    (if s.feedWater.tds < s.targetQuality.tds then ["Target TDS exceeds feed TDS"] else []) ++
    (if s.feedWater.tss < s.targetQuality.tss then ["Target TSS exceeds feed TSS"] else [])
  { valid := errors.isEmpty, errors := errors }

structure RequiredRemoval where
  tds : ℚ
  tss : ℚ
  bod : ℚ
  cod : ℚ
deriving DecidableEq

/-- Embedding of `CustomerSpec.getRequiredRemoval()`.  The source divides
unconditionally, with no guard on a zero feed concentration: there
JavaScript produces -Infinity (or NaN for 0/0), while the rational
convention `x / 0 = 0` makes the expression evaluate to 1.  Under either
semantics the value is not the guarded 0 that `calculateRemovalNeeded`
returns. -/
def CustomerSpec.getRequiredRemoval (s : CustomerSpec) : RequiredRemoval :=
  { tds := 1 - s.targetQuality.tds / s.feedWater.tds
    tss := 1 - s.targetQuality.tss / s.feedWater.tss
    bod := 1 - s.targetQuality.bod / s.feedWater.bod
    cod := 1 - s.targetQuality.cod / s.feedWater.cod }

/-- Embedding of `SolutionEngine.filterFeasibleChains()`: keep only the
chains whose combined performance meets the TDS, TSS and BOD removal
requirements (the audit-log side effect on `this.decisions` is not
modelled; it does not affect the returned list). -/
def filterFeasibleChains (s : CustomerSpec) : List TechChain :=
  let requiredRemoval := s.getRequiredRemoval
  TECH_CHAINS.filter (fun chain =>
    let perf := calculateChainPerformance chain.techs
    decide (requiredRemoval.tds ≤ perf.tdsRemoval) &&
    decide (requiredRemoval.tss ≤ perf.tssRemoval) &&
    decide (requiredRemoval.bod ≤ perf.bodRemoval))

-- ===========================================================================
-- Pricing model (proposal-engine.js, PricingModel)
-- ===========================================================================

/-- Fields of the solution record that `PricingModel` reads (`capex`,
`confidence`, `esgScore`); the remaining fields of the proposal-engine
solution record are not consumed by the pricing functions. -/
structure PricingSolution where
  capex : ℝ
  confidence : ℝ
  esgScore : ℝ

/-- Embedding of `PricingModel.calculatePrice(margin)`:
`Math.round(capex * (1 + margin))`, with `Math.round x = ⌊x + 1/2⌋`. -/
noncomputable def calculatePrice (sol : PricingSolution) (margin : ℝ) : ℝ :=
  (⌊sol.capex * (1 + margin) + 1 / 2⌋ : ℤ)

/-- Embedding of `PricingModel.calculateWinProbability(price)`: a logistic
model in the price-to-capex ratio, solution confidence and ESG score. -/
noncomputable def calculateWinProbability (sol : PricingSolution) (price : ℝ) : ℝ :=
  let r := price / sol.capex
  let z := 3 - (r - 1) * 10 + (sol.confidence - 0.7) * 5 +
    (sol.esgScore / 100 - 0.7) * 3
  1 / (1 + Real.exp (-z))

/-- Expected value of offering a given price:
`winProbability(price) * (price - capex)`. -/
noncomputable def expectedValueAt (sol : PricingSolution) (price : ℝ) : ℝ :=
  calculateWinProbability sol price * (price - sol.capex)

/-- Margin steps visited by the `findOptimalPrice` loop
(`for margin = 0.10; margin <= 0.40; margin += 0.01`), in exact
arithmetic: 0.10, 0.11, ..., 0.40.  (In binary floating point the
accumulated `+= 0.01` error stops the source loop one step earlier, at
0.39; every step the source visits is in this grid, and the verified
dominance property quantifies over the whole grid.) -/
noncomputable def marginGrid : List ℝ :=
  (List.range 31).map (fun k => (10 + k) / 100)

/-- One iteration of the margin-search loop: keep the price with the
strictly larger expected value. -/
noncomputable def optStep (sol : PricingSolution) (acc : ℝ × ℝ) (margin : ℝ) : ℝ × ℝ :=
  let price := calculatePrice sol margin
  let winProb := calculateWinProbability sol price
  let expectedValue := winProb * (price - sol.capex)
  if acc.2 < expectedValue then (price, expectedValue) else acc

/-- Result record of `PricingModel.findOptimalPrice()`. -/
structure OptimalPrice where
  price : ℝ
  margin : ℝ
  winProbability : ℝ
  expectedValue : ℝ

/-- Embedding of `PricingModel.findOptimalPrice()`: linear search over the
margin grid starting from `bestPrice = capex * 1.1`, `bestExpectedValue = 0`. -/
noncomputable def findOptimalPrice (sol : PricingSolution) : OptimalPrice :=
  let r := marginGrid.foldl (optStep sol) (sol.capex * 1.1, 0)
  { price := r.1
    margin := r.1 / sol.capex - 1
    winProbability := calculateWinProbability sol r.1
    expectedValue := r.2 }

-- ===========================================================================
-- Concrete instances used by counterexamples and witnesses
-- ===========================================================================

/-- Representative simulator inputs (pharmaceutical defaults of the form). -/
def I0 : SimInputs :=
  ⟨"pharmaceutical", 100, 8000, 50, 1500, 120, 200, 5, 100, 0.4, 0.35, 0.25, 500, 500000⟩

/-- Over-constrained simulator inputs: the budget of 1 pound is below the
capital cost of every chain, so no chain is feasible. -/
def I1 : SimInputs :=
  ⟨"power", 100, 8000, 150, 1000, 50, 80, 5, 50, 0.4, 0.35, 0.25, 10000, 1⟩

/-- Simulator inputs with zero feed concentrations. -/
def IZ : SimInputs :=
  ⟨"municipal", 100, 8000, 0, 0, 0, 0, 5, 50, 0.4, 0.35, 0.25, 500, 500000⟩

/-- First chain of the registry, evaluated on `I0`. -/
def wsol : Solution :=
  evalChain I0 ⟨["UF", "RO"], "UF + RO", "Standard high-purity treatment"⟩

/-- Customer specification whose target BOD (100) exceeds its feed BOD (1);
every other field satisfies the implemented checks. -/
def specCB : CustomerSpec :=
  ⟨"pharmaceutical", 100, 8000, ⟨1500, 50, 1, 200, 7.2⟩, ⟨10, 0.1, 100, 5⟩⟩

/-- Scenario C specification: target TDS 600 exceeds feed TDS 500. -/
def specScenC : CustomerSpec :=
  ⟨"pharmaceutical", 100, 8000, ⟨500, 50, 120, 200, 7.2⟩, ⟨600, 0.1, 1, 5⟩⟩

/-- The constructor defaults of `CustomerSpec` in the source. -/
def specDefaults : CustomerSpec :=
  ⟨"pharmaceutical", 100, 8000, ⟨1500, 50, 120, 200, 7.2⟩, ⟨10, 0.1, 1, 5⟩⟩

/-- Specification with zero feed TDS. -/
def specZeroFeed : CustomerSpec :=
  ⟨"pharmaceutical", 100, 8000, ⟨0, 50, 120, 200, 7.2⟩, ⟨10, 0.1, 1, 5⟩⟩

/-- Pricing-model solution used to witness the margin-search theorem. -/
def pricingWitnessSol : PricingSolution := ⟨100000, 0.8, 70⟩

-- ===========================================================================
-- Helper lemmas: registry bounds and chain composition
-- ===========================================================================

/-- Removal fractions of each accumulator component lie in the unit interval. -/
def RemovalBounded (acc : ChainAcc) : Prop :=
  0 ≤ acc.tssRemoval ∧ acc.tssRemoval ≤ 1 ∧
  0 ≤ acc.tdsRemoval ∧ acc.tdsRemoval ≤ 1 ∧
  0 ≤ acc.bodRemoval ∧ acc.bodRemoval ≤ 1 ∧
  0 ≤ acc.codRemoval ∧ acc.codRemoval ≤ 1

lemma tech_removal_bounds (tid : String) (t : Technology)
    (h : TECHNOLOGIES tid = some t) :
    (0 ≤ t.tssRemoval ∧ t.tssRemoval ≤ 1) ∧ (0 ≤ t.tdsRemoval ∧ t.tdsRemoval ≤ 1) ∧
    (0 ≤ t.bodRemoval ∧ t.bodRemoval ≤ 1) ∧ (0 ≤ t.codRemoval ∧ t.codRemoval ≤ 1) := by
  unfold TECHNOLOGIES at h
  split_ifs at h <;>
    first
      | exact Option.noConfusion h
      | (injection h with h; subst h;
         norm_num [techUF, techMBR, techRO, techUV, techAOP, techNF, techDAF])

lemma serial_step_bounds (r rt : ℚ) (hr1 : r ≤ 1)
    (ht0 : 0 ≤ rt) (ht1 : rt ≤ 1) :
    r ≤ 1 - (1 - r) * (1 - rt) ∧ 1 - (1 - r) * (1 - rt) ≤ 1 := by
  constructor
  · nlinarith [mul_nonneg (sub_nonneg.mpr hr1) ht0]
  · nlinarith [mul_nonneg (sub_nonneg.mpr hr1) (sub_nonneg.mpr ht1)]

lemma chainAccStep_removal (acc : ChainAcc) (tid : String) (h : RemovalBounded acc) :
    RemovalBounded (chainAccStep acc tid) ∧
    acc.tssRemoval ≤ (chainAccStep acc tid).tssRemoval ∧
    acc.tdsRemoval ≤ (chainAccStep acc tid).tdsRemoval ∧
    acc.bodRemoval ≤ (chainAccStep acc tid).bodRemoval ∧
    acc.codRemoval ≤ (chainAccStep acc tid).codRemoval := by
  obtain ⟨h1, h2, h3, h4, h5, h6, h7, h8⟩ := h
  unfold chainAccStep
  cases hT : TECHNOLOGIES tid with
  | none =>
    exact ⟨⟨h1, h2, h3, h4, h5, h6, h7, h8⟩, le_refl _, le_refl _, le_refl _, le_refl _⟩
  | some t =>
    obtain ⟨⟨a1, a2⟩, ⟨b1, b2⟩, ⟨c1, c2⟩, ⟨d1, d2⟩⟩ := tech_removal_bounds tid t hT
    obtain ⟨sa1, sa2⟩ := serial_step_bounds acc.tssRemoval t.tssRemoval h2 a1 a2
    obtain ⟨sb1, sb2⟩ := serial_step_bounds acc.tdsRemoval t.tdsRemoval h4 b1 b2
    obtain ⟨sc1, sc2⟩ := serial_step_bounds acc.bodRemoval t.bodRemoval h6 c1 c2
    obtain ⟨sd1, sd2⟩ := serial_step_bounds acc.codRemoval t.codRemoval h8 d1 d2
    exact ⟨⟨le_trans h1 sa1, sa2, le_trans h3 sb1, sb2,
            le_trans h5 sc1, sc2, le_trans h7 sd1, sd2⟩, sa1, sb1, sc1, sd1⟩

lemma chainFold_removal (l : List String) (acc : ChainAcc) (h : RemovalBounded acc) :
    RemovalBounded (l.foldl chainAccStep acc) ∧
    acc.tssRemoval ≤ (l.foldl chainAccStep acc).tssRemoval ∧
    acc.tdsRemoval ≤ (l.foldl chainAccStep acc).tdsRemoval ∧
    acc.bodRemoval ≤ (l.foldl chainAccStep acc).bodRemoval ∧
    acc.codRemoval ≤ (l.foldl chainAccStep acc).codRemoval := by
  induction l generalizing acc with
  | nil =>
    exact ⟨h, le_refl _, le_refl _, le_refl _, le_refl _⟩
  | cons tid rest ih =>
    obtain ⟨hstep, m1, m2, m3, m4⟩ := chainAccStep_removal acc tid h
    obtain ⟨hres, n1, n2, n3, n4⟩ := ih (chainAccStep acc tid) hstep
    exact ⟨hres, le_trans m1 n1, le_trans m2 n2, le_trans m3 n3, le_trans m4 n4⟩

lemma chainAccInit_bounded : RemovalBounded chainAccInit := by
  unfold RemovalBounded chainAccInit
  norm_num

lemma chainPerformance_bounded (techs : List String) :
    RemovalBounded (techs.foldl chainAccStep chainAccInit) :=
  (chainFold_removal techs chainAccInit chainAccInit_bounded).1

-- ===========================================================================
-- Helper lemmas: stable sort permutation and membership
-- ===========================================================================

lemma insertByScore_perm (s : Solution) (l : List Solution) :
    (insertByScore s l).Perm (s :: l) := by
  induction l with
  | nil => exact List.Perm.refl _
  | cons t rest ih =>
    unfold insertByScore
    split
    · exact List.Perm.refl _
    · exact (ih.cons t).trans (List.Perm.swap s t rest)

lemma foldl_insertByScore_perm (l acc : List Solution) :
    (l.foldl (fun a s => insertByScore s a) acc).Perm (l ++ acc) := by
  induction l generalizing acc with
  | nil => simp
  | cons s rest ih =>
    have h1 := ih (insertByScore s acc)
    have h2 : (rest ++ insertByScore s acc).Perm (rest ++ s :: acc) :=
      List.Perm.append_left rest (insertByScore_perm s acc)
    have h3 : (rest ++ s :: acc).Perm (s :: (rest ++ acc)) := List.perm_middle
    simpa using (h1.trans h2).trans h3

lemma sortByScoreDesc_perm (l : List Solution) : (sortByScoreDesc l).Perm l := by
  unfold sortByScoreDesc
  simpa using foldl_insertByScore_perm l []

lemma mem_evaluateTechnologies (inputs : SimInputs) (sol : Solution)
    (h : sol ∈ evaluateTechnologies inputs) :
    ∃ chain ∈ TECH_CHAINS, sol = evalChain inputs chain := by
  unfold evaluateTechnologies at h
  have := (sortByScoreDesc_perm (TECH_CHAINS.map (evalChain inputs))).mem_iff.mp h
  obtain ⟨chain, hmem, heq⟩ := List.mem_map.mp this
  exact ⟨chain, hmem, heq.symm⟩

-- ===========================================================================
-- Helper lemmas: technical-fit score bounds
-- ===========================================================================

lemma ratio_score_bounds (rn p : ℚ) (hp : 0 ≤ p) :
    0 ≤ (if rn ≤ p then (1 : ℚ) else p / (if rn = 0 then 1 else rn)) ∧
    (if rn ≤ p then (1 : ℚ) else p / (if rn = 0 then 1 else rn)) ≤ 1 := by
  split_ifs with h1 h2
  · norm_num
  · exact absurd (h2 ▸ hp) h1
  · have hlt : p < rn := not_le.mp h1
    have hrn : 0 < rn := lt_of_le_of_lt hp hlt
    exact ⟨div_nonneg hp (le_of_lt hrn), le_of_lt ((div_lt_one hrn).mpr hlt)⟩

lemma evalChain_techScore_bounds (inputs : SimInputs) (chain : TechChain) :
    0 ≤ (evalChain inputs chain).techScore ∧ (evalChain inputs chain).techScore ≤ 1 := by
  obtain ⟨p1, -, p3, -, -, -, -, -⟩ := chainPerformance_bounded chain.techs
  have h1 := ratio_score_bounds (calculateRemovalNeeded inputs).tss
    (calculateChainPerformance chain.techs).tssRemoval p1
  have h2 := ratio_score_bounds (calculateRemovalNeeded inputs).tds
    (calculateChainPerformance chain.techs).tdsRemoval p3
  exact ⟨mul_nonneg h1.1 h2.1, mul_le_one₀ h1.2 h2.1 h2.2⟩

-- ===========================================================================
-- C4 — chain removal fractions bounded and append-monotone
-- ===========================================================================

/-- C4: for every chain of technology identifiers, each combined removal
fraction computed by `calculateChainPerformance` lies in [0,1] (all
per-technology registry fractions lie in [0,1], so the claim's premise
holds for every chain), and appending a further technology never decreases
any combined removal fraction. -/
theorem chainPerformance_removal_bounded_and_append_monotone
    (techs : List String) (tid : String) :
    (0 ≤ (calculateChainPerformance techs).tssRemoval ∧
      (calculateChainPerformance techs).tssRemoval ≤ 1) ∧
    (0 ≤ (calculateChainPerformance techs).tdsRemoval ∧
      (calculateChainPerformance techs).tdsRemoval ≤ 1) ∧
    (0 ≤ (calculateChainPerformance techs).bodRemoval ∧
      (calculateChainPerformance techs).bodRemoval ≤ 1) ∧
    (0 ≤ (calculateChainPerformance techs).codRemoval ∧
      (calculateChainPerformance techs).codRemoval ≤ 1) ∧
    (calculateChainPerformance techs).tssRemoval ≤
      (calculateChainPerformance (techs ++ [tid])).tssRemoval ∧
    (calculateChainPerformance techs).tdsRemoval ≤
      (calculateChainPerformance (techs ++ [tid])).tdsRemoval ∧
    (calculateChainPerformance techs).bodRemoval ≤
      (calculateChainPerformance (techs ++ [tid])).bodRemoval ∧
    (calculateChainPerformance techs).codRemoval ≤
      (calculateChainPerformance (techs ++ [tid])).codRemoval := by
  obtain ⟨b1, b2, b3, b4, b5, b6, b7, b8⟩ := chainPerformance_bounded techs
  obtain ⟨-, m1, m2, m3, m4⟩ :=
    chainAccStep_removal (techs.foldl chainAccStep chainAccInit) tid
      (chainPerformance_bounded techs)
  refine ⟨⟨b1, b2⟩, ⟨b3, b4⟩, ⟨b5, b6⟩, ⟨b7, b8⟩, ?_, ?_, ?_, ?_⟩ <;>
    simpa only [calculateChainPerformance, List.foldl_append, List.foldl_cons,
      List.foldl_nil] using ‹_›

-- ===========================================================================
-- C10 — unknown identifiers are skipped and act as an identity
-- ===========================================================================

/-- C10: `calculateChainPerformance` is total over any identifier list; an
identifier absent from the registry is silently skipped, so the result is
the result for the chain without it, except for the verbatim `techs` echo
of the input list. -/
theorem unknown_tech_identity (l1 l2 : List String) (tid : String)
    (h : TECHNOLOGIES tid = none) :
    calculateChainPerformance (l1 ++ tid :: l2) =
      { calculateChainPerformance (l1 ++ l2) with techs := l1 ++ tid :: l2 } := by
  have hstep : ∀ acc : ChainAcc, chainAccStep acc tid = acc := by
    intro acc; unfold chainAccStep; rw [h]
  have hfold : (l1 ++ tid :: l2).foldl chainAccStep chainAccInit =
      (l1 ++ l2).foldl chainAccStep chainAccInit := by
    simp [List.foldl_append, List.foldl_cons, hstep]
  simp [calculateChainPerformance, hfold]

/-- Witness for C10 at a concrete unknown identifier. -/
theorem unknown_tech_identity_witness :
    TECHNOLOGIES "XJ" = none ∧
    calculateChainPerformance (["UF"] ++ "XJ" :: ["RO"]) =
      { calculateChainPerformance (["UF"] ++ ["RO"]) with
          techs := ["UF"] ++ "XJ" :: ["RO"] } :=
  ⟨by simp [TECHNOLOGIES], unknown_tech_identity ["UF"] ["RO"] "XJ" (by simp [TECHNOLOGIES])⟩

-- ===========================================================================
-- C6 — retention of evaluated chains
-- ===========================================================================

lemma TECHNOLOGIES_UF : TECHNOLOGIES "UF" = some techUF := rfl

lemma TECHNOLOGIES_MBR : TECHNOLOGIES "MBR" = some techMBR := rfl

lemma TECHNOLOGIES_RO : TECHNOLOGIES "RO" = some techRO := rfl

lemma TECHNOLOGIES_UV : TECHNOLOGIES "UV" = some techUV := rfl

lemma TECHNOLOGIES_AOP : TECHNOLOGIES "AOP" = some techAOP := rfl

lemma TECHNOLOGIES_NF : TECHNOLOGIES "NF" = some techNF := rfl

lemma TECHNOLOGIES_DAF : TECHNOLOGIES "DAF" = some techDAF := rfl

/-- C6 counterexample: the proposal-engine feasibility filter
`SolutionEngine.filterFeasibleChains` does not keep every evaluated chain.
On the constructor-default specification the required TDS removal is
149/150 ≈ 0.9933, which no chain achieves, and the returned list is empty
although eight chains were evaluated. -/
theorem filterFeasibleChains_drops_infeasible :
    (⟨["UF", "RO"], "UF + RO", "Standard high-purity treatment"⟩ : TechChain) ∈ TECH_CHAINS ∧
    filterFeasibleChains specDefaults = [] := by
  constructor
  · simp [TECH_CHAINS]
  · simp only [filterFeasibleChains]
    rw [List.filter_eq_nil_iff]
    intro chain hchain
    fin_cases hchain <;>
      norm_num [specDefaults, CustomerSpec.getRequiredRemoval, calculateChainPerformance,
        chainAccStep, chainAccInit, TECHNOLOGIES_UF, TECHNOLOGIES_MBR, TECHNOLOGIES_RO,
        TECHNOLOGIES_UV, TECHNOLOGIES_AOP, TECHNOLOGIES_NF, TECHNOLOGIES_DAF,
        techUF, techMBR, techRO, techUV, techAOP, techNF, techDAF,
        Bool.and_eq_true, decide_eq_true_eq]

/-- C6 (amended): the simulator evaluator `evaluateTechnologies` keeps every
evaluated chain — its output is a permutation (by name and technology list)
of the full chain registry, so infeasible candidates are retained. -/
theorem evaluateTechnologies_retains_every_chain (inputs : SimInputs) :
    ((evaluateTechnologies inputs).map (fun s => (s.name, s.techs))).Perm
      (TECH_CHAINS.map (fun c => (c.name, c.techs))) := by
  unfold evaluateTechnologies
  have hp := (sortByScoreDesc_perm (TECH_CHAINS.map (evalChain inputs))).map
    (fun s => (s.name, s.techs))
  refine hp.trans ?_
  rw [List.map_map]
  have hcomp : ((fun s => (s.name, s.techs)) ∘ evalChain inputs) =
      fun c : TechChain => (c.name, c.techs) := by
    funext c; rfl
  rw [hcomp]

-- ===========================================================================
-- C9 — best solution is never null
-- ===========================================================================

/-- C9 counterexample: on inputs whose budget (1 pound) is below the capital
cost of every chain, no chain satisfies all constraints, yet the run's best
solution is still present (`solutions[0]` of a non-empty list), not
undefined/null, and no dedicated diagnostic exists. -/
theorem bestSolution_present_when_all_infeasible :
    (∀ s ∈ evaluateTechnologies I1, s.feasible = false) ∧
    (simulatorBestSolution I1).isSome = true := by
  constructor
  · intro s hs
    obtain ⟨chain, hchain, rfl⟩ := mem_evaluateTechnologies I1 s hs
    fin_cases hchain <;>
      · rw [← Bool.not_eq_true]
        norm_num [evalChain, I1, calculateRemovalNeeded, calculateChainPerformance,
          chainAccStep, chainAccInit, TECHNOLOGIES_UF, TECHNOLOGIES_MBR, TECHNOLOGIES_RO,
          TECHNOLOGIES_UV, TECHNOLOGIES_AOP, TECHNOLOGIES_NF, TECHNOLOGIES_DAF,
          techUF, techMBR, techRO, techUV, techAOP, techNF, techDAF,
          Bool.and_eq_true, decide_eq_true_eq]
  · unfold simulatorBestSolution evaluateTechnologies
    cases hc : sortByScoreDesc (TECH_CHAINS.map (evalChain I1)) with
    | nil =>
      have hp := sortByScoreDesc_perm (TECH_CHAINS.map (evalChain I1))
      rw [hc] at hp
      have hl := hp.length_eq
      simp [TECH_CHAINS] at hl
    | cons a l => simp [hc]

/-- C9 (amended): `Simulator.run` always has a non-null best solution —
`solutions[0]` of the always-eight-element evaluated list — regardless of
feasibility; no null signalling of the infeasible case occurs. -/
theorem simulatorBestSolution_isSome (inputs : SimInputs) :
    (simulatorBestSolution inputs).isSome = true := by
  unfold simulatorBestSolution evaluateTechnologies
  cases hc : sortByScoreDesc (TECH_CHAINS.map (evalChain inputs)) with
  | nil =>
    have hp := sortByScoreDesc_perm (TECH_CHAINS.map (evalChain inputs))
    rw [hc] at hp
    have hl := hp.length_eq
    simp [TECH_CHAINS] at hl
  | cons a l => simp [hc]

-- ===========================================================================
-- C7 — required-removal guard
-- ===========================================================================

/-- C7 counterexample: `CustomerSpec.getRequiredRemoval` derives a required
removal rate with no zero-feed guard.  With feed TDS 0 the claimed guarded
value 0 is not produced (the embedding evaluates the unguarded expression
to 1; the JavaScript original produces -Infinity — under neither semantics
is it the guarded 0). -/
theorem getRequiredRemoval_unguarded_zero_feed :
    specZeroFeed.feedWater.tds = 0 ∧ specZeroFeed.getRequiredRemoval.tds ≠ 0 := by
  constructor
  · norm_num [specZeroFeed]
  · norm_num [CustomerSpec.getRequiredRemoval, specZeroFeed]

/-- C7 (amended): the simulator path `calculateRemovalNeeded` computes
`1 - target/feed` and guards a non-positive feed to 0, but the
proposal-engine path `CustomerSpec.getRequiredRemoval` computes
`1 - target/feed` unconditionally, with no zero-feed guard. -/
theorem removalNeeded_zero_feed_guard (inputs : SimInputs) (s : CustomerSpec) :
    (inputs.tss ≤ 0 → (calculateRemovalNeeded inputs).tss = 0) ∧
    (inputs.tds ≤ 0 → (calculateRemovalNeeded inputs).tds = 0) ∧
    (0 < inputs.tss →
      (calculateRemovalNeeded inputs).tss = 1 - inputs.tssTarget / inputs.tss) ∧
    (0 < inputs.tds →
      (calculateRemovalNeeded inputs).tds = 1 - inputs.tdsTarget / inputs.tds) ∧
    s.getRequiredRemoval.tds = 1 - s.targetQuality.tds / s.feedWater.tds := by
  refine ⟨fun h => ?_, fun h => ?_, fun h => ?_, fun h => ?_, rfl⟩
  · simp [calculateRemovalNeeded, not_lt.mpr h]
  · simp [calculateRemovalNeeded, not_lt.mpr h]
  · simp [calculateRemovalNeeded, h]
  · simp [calculateRemovalNeeded, h]

/-- Witness for C7 at inputs with zero feed concentrations. -/
theorem removalNeeded_zero_feed_guard_witness :
    IZ.tss ≤ 0 ∧ (calculateRemovalNeeded IZ).tss = 0 ∧ (calculateRemovalNeeded IZ).tds = 0 :=
  ⟨by norm_num [IZ],
    (removalNeeded_zero_feed_guard IZ specDefaults).1 (by norm_num [IZ]),
    (removalNeeded_zero_feed_guard IZ specDefaults).2.1 (by norm_num [IZ])⟩

-- ===========================================================================
-- C3 — validation coverage
-- ===========================================================================

/-- C3 counterexample: a specification whose target BOD (100) exceeds its
feed BOD (1) still validates with no errors — `validate` checks only flow
positivity, TDS and TSS, so the claimed per-parameter BOD/COD violations
are never reported. -/
theorem validate_ignores_bod_violation :
    specCB.feedWater.bod < specCB.targetQuality.bod ∧
    (specCB.validate).valid = true ∧ (specCB.validate).errors = [] := by
  refine ⟨by norm_num [specCB], ?_, ?_⟩ <;>
    norm_num [CustomerSpec.validate, specCB]

/-- C3 (amended): `validate` accumulates all violations of the three
implemented checks (positive flow rate, target TDS at most feed TDS,
target TSS at most feed TSS) — not just the first — and Scenario C (target
TDS 600 against feed TDS 500) yields valid = false with the single error
naming the TDS violation.  BOD and COD targets are not checked. -/
theorem validate_reports_implemented_checks (s : CustomerSpec) :
    ((s.validate).valid = true ↔
      (¬s.flowRate ≤ 0 ∧ ¬s.feedWater.tds < s.targetQuality.tds ∧
        ¬s.feedWater.tss < s.targetQuality.tss)) ∧
    (s.flowRate ≤ 0 → "Flow rate must be positive" ∈ (s.validate).errors) ∧
    (s.feedWater.tds < s.targetQuality.tds →
      "Target TDS exceeds feed TDS" ∈ (s.validate).errors) ∧
    (s.feedWater.tss < s.targetQuality.tss →
      "Target TSS exceeds feed TSS" ∈ (s.validate).errors) ∧
    specScenC.validate = ⟨false, ["Target TDS exceeds feed TDS"]⟩ := by
  refine ⟨?_, ?_, ?_, ?_, by norm_num [CustomerSpec.validate, specScenC]⟩ <;>
  · by_cases h1 : s.flowRate ≤ 0 <;> by_cases h2 : s.feedWater.tds < s.targetQuality.tds <;>
      by_cases h3 : s.feedWater.tss < s.targetQuality.tss <;>
      simp [CustomerSpec.validate, h1, h2, h3]

/-- Witness for C3 at the Scenario C specification. -/
theorem validate_reports_implemented_checks_witness :
    specScenC.feedWater.tds < specScenC.targetQuality.tds ∧
    "Target TDS exceeds feed TDS" ∈ (specScenC.validate).errors :=
  ⟨by norm_num [specScenC],
    (validate_reports_implemented_checks specScenC).2.2.1 (by norm_num [specScenC])⟩

-- ===========================================================================
-- C1 — ledger fingerprint determinism
-- ===========================================================================

/-- Serialized inputs record used by the fingerprint counterexample (the
JSON text of a gathered inputs object). -/
def ledgerInputsJson : String := "\x7b\"flow\":100,\"tds\":1500\x7d"

set_option maxRecDepth 100000 in
/-- C1: two invocations of `generateLedgerHash` with identical inputs, the
same selected solution and the timestamp held fixed return different hash
strings as soon as the two `Math.random()` samples differ — the random
48-character suffix makes the fingerprint non-deterministic, contradicting
both the claim and the function's own doc comment. -/
theorem ledgerHash_random_suffix_breaks_determinism :
    generateLedgerHash ledgerInputsJson "UF + RO" ⟨1700000000000, "4f9a02c77d1e5b20"⟩ ≠
    generateLedgerHash ledgerInputsJson "UF + RO" ⟨1700000000000, "b31e88d0124c9aa7"⟩ := by
  decide

-- ===========================================================================
-- C5 — feasibility flag agrees with the constraint checks
-- ===========================================================================

/-- C5: for every input record, every solution produced by
`evaluateTechnologies` has its feasible flag set if and only if all four
constraint checks returned by `checkConstraints` for that solution (TSS
removal, TDS removal, footprint, budget) pass. -/
theorem feasible_iff_all_constraint_checks_pass (inputs : SimInputs) :
    (evaluateTechnologies inputs).Forall (fun sol =>
      sol.feasible = true ↔
        (checkConstraints inputs sol).Forall (fun c => c.pass = true)) := by
  rw [List.forall_iff_forall_mem]
  intro sol hsol
  obtain ⟨chain, -, rfl⟩ := mem_evaluateTechnologies inputs sol hsol
  simp only [checkConstraints, evalChain, List.Forall, Bool.and_eq_true,
    decide_eq_true_eq]
  tauto

-- ===========================================================================
-- C8 — confidence score range and auto-approve threshold
-- ===========================================================================

/-- C8: for every input record, every solution produced by
`evaluateTechnologies` gets a confidence score in [0,100] from
`calculateConfidence`, and a score of at least 80 always carries the
decision label "Auto-approve recommended". -/
theorem confidence_score_in_range_and_threshold (inputs : SimInputs) :
    (evaluateTechnologies inputs).Forall (fun sol =>
      0 ≤ (calculateConfidence inputs sol).score ∧
      (calculateConfidence inputs sol).score ≤ 100 ∧
      (80 ≤ (calculateConfidence inputs sol).score →
        (calculateConfidence inputs sol).decision = "Auto-approve recommended")) := by
  rw [List.forall_iff_forall_mem]
  intro sol hsol
  obtain ⟨chain, -, rfl⟩ := mem_evaluateTechnologies inputs sol hsol
  obtain ⟨ht0, ht1⟩ := evalChain_techScore_bounds inputs chain
  have hscore : (calculateConfidence inputs (evalChain inputs chain)).score =
      (0.4 * 0.85 + 0.35 * (evalChain inputs chain).techScore +
        0.25 * (if (evalChain inputs chain).feasible then (0.9 : ℚ) else 0.3)) * 100 := rfl
  have hdec : (calculateConfidence inputs (evalChain inputs chain)).decision =
      if 80 ≤ (calculateConfidence inputs (evalChain inputs chain)).score then
        "Auto-approve recommended"
      else if 50 ≤ (calculateConfidence inputs (evalChain inputs chain)).score then
        "Human review recommended"
      else "Manual override required" := rfl
  refine ⟨?_, ?_, fun h80 => ?_⟩
  · rw [hscore]; split_ifs <;> nlinarith
  · rw [hscore]; split_ifs <;> nlinarith
  · rw [hdec, if_pos h80]

-- ===========================================================================
-- Helper lemmas: margin search invariants
-- ===========================================================================

lemma calculateWinProbability_pos (sol : PricingSolution) (price : ℝ) :
    0 < calculateWinProbability sol price := by
  unfold calculateWinProbability
  positivity

lemma optStep_ev_eq (sol : PricingSolution) (m : ℝ) :
    expectedValueAt sol (calculatePrice sol m) =
      calculateWinProbability sol (calculatePrice sol m) *
        (calculatePrice sol m - sol.capex) := rfl

lemma optStep_inv (sol : PricingSolution) (acc : ℝ × ℝ) (m : ℝ)
    (h1 : sol.capex ≤ acc.1) (h2 : 0 ≤ acc.2)
    (h3 : acc.2 ≤ expectedValueAt sol acc.1) :
    sol.capex ≤ (optStep sol acc m).1 ∧ 0 ≤ (optStep sol acc m).2 ∧
    (optStep sol acc m).2 ≤ expectedValueAt sol (optStep sol acc m).1 ∧
    acc.2 ≤ (optStep sol acc m).2 ∧
    expectedValueAt sol (calculatePrice sol m) ≤ (optStep sol acc m).2 := by
  unfold optStep
  by_cases hlt : acc.2 <
      calculateWinProbability sol (calculatePrice sol m) * (calculatePrice sol m - sol.capex)
  · rw [if_pos hlt]
    have hwp := calculateWinProbability_pos sol (calculatePrice sol m)
    have hev : (0 : ℝ) <
        calculateWinProbability sol (calculatePrice sol m) *
          (calculatePrice sol m - sol.capex) := lt_of_le_of_lt h2 hlt
    have hpc : sol.capex ≤ calculatePrice sol m := by nlinarith
    exact ⟨hpc, le_of_lt hev, le_of_eq rfl, le_of_lt hlt, le_of_eq rfl⟩
  · rw [if_neg hlt]
    exact ⟨h1, h2, h3, le_refl _, not_lt.mp hlt⟩

lemma optFold_inv (sol : PricingSolution) (l : List ℝ) (acc : ℝ × ℝ)
    (h1 : sol.capex ≤ acc.1) (h2 : 0 ≤ acc.2)
    (h3 : acc.2 ≤ expectedValueAt sol acc.1) :
    sol.capex ≤ (l.foldl (optStep sol) acc).1 ∧
    0 ≤ (l.foldl (optStep sol) acc).2 ∧
    (l.foldl (optStep sol) acc).2 ≤ expectedValueAt sol (l.foldl (optStep sol) acc).1 ∧
    acc.2 ≤ (l.foldl (optStep sol) acc).2 ∧
    ∀ m ∈ l, expectedValueAt sol (calculatePrice sol m) ≤ (l.foldl (optStep sol) acc).2 := by
  induction l generalizing acc with
  | nil =>
    exact ⟨h1, h2, h3, le_refl _, by simp⟩
  | cons m rest ih =>
    obtain ⟨s1, s2, s3, s4, s5⟩ := optStep_inv sol acc m h1 h2 h3
    obtain ⟨f1, f2, f3, f4, f5⟩ := ih (optStep sol acc m) s1 s2 s3
    refine ⟨f1, f2, f3, le_trans s4 f4, ?_⟩
    intro x hx
    rcases List.mem_cons.mp hx with hx | hx
    · exact le_trans (hx ▸ s5) f4
    · exact f5 x hx

-- ===========================================================================
-- C2 — margin search: price at least capital cost, grid optimality
-- ===========================================================================

/-- C2: for every pricing solution with positive capital cost,
`findOptimalPrice` returns a price no lower than the capital cost (so the
margin is non-negative), and the expected value at the chosen price is at
least the expected value at every margin step of the 10 to 40 percent
grid. -/
theorem findOptimalPrice_price_floor_and_grid_optimal (sol : PricingSolution)
    (hc : 0 < sol.capex) :
    sol.capex ≤ (findOptimalPrice sol).price ∧
    0 ≤ (findOptimalPrice sol).margin ∧
    ∀ m ∈ marginGrid,
      expectedValueAt sol (calculatePrice sol m) ≤
        expectedValueAt sol (findOptimalPrice sol).price := by
  have hinit1 : sol.capex ≤ sol.capex * 1.1 := by nlinarith
  have hinit3 : (0 : ℝ) ≤ expectedValueAt sol (sol.capex * 1.1) := by
    unfold expectedValueAt
    have := calculateWinProbability_pos sol (sol.capex * 1.1)
    nlinarith
  obtain ⟨f1, f2, f3, -, f5⟩ :=
    optFold_inv sol marginGrid (sol.capex * 1.1, 0) hinit1 le_rfl hinit3
  have hprice : (findOptimalPrice sol).price =
      (marginGrid.foldl (optStep sol) (sol.capex * 1.1, 0)).1 := rfl
  have hmargin : (findOptimalPrice sol).margin =
      (marginGrid.foldl (optStep sol) (sol.capex * 1.1, 0)).1 / sol.capex - 1 := rfl
  refine ⟨hprice ▸ f1, ?_, fun m hm => ?_⟩
  · rw [hmargin]
    have h1le : 1 ≤ (marginGrid.foldl (optStep sol) (sol.capex * 1.1, 0)).1 / sol.capex :=
      (one_le_div hc).mpr f1
    linarith
  · rw [hprice]
    exact le_trans (f5 m hm) f3

/-- Witness for C2 at a concrete pricing solution. -/
theorem findOptimalPrice_price_floor_and_grid_optimal_witness :
    0 < pricingWitnessSol.capex ∧
    (pricingWitnessSol.capex ≤ (findOptimalPrice pricingWitnessSol).price ∧
     0 ≤ (findOptimalPrice pricingWitnessSol).margin ∧
     ∀ m ∈ marginGrid,
       expectedValueAt pricingWitnessSol (calculatePrice pricingWitnessSol m) ≤
         expectedValueAt pricingWitnessSol (findOptimalPrice pricingWitnessSol).price) :=
  ⟨by norm_num [pricingWitnessSol],
    findOptimalPrice_price_floor_and_grid_optimal pricingWitnessSol
      (by norm_num [pricingWitnessSol])⟩
